import Mathlib

/-!
Shallow embedding of the liveness-verification intake server (src/server.py):
a Flask app exposing POST /verify (multipart submission of JSON metadata plus a
video file, persisted as two files), GET /files (listing), and
GET /download/<filename> (raw bytes).  Python dynamic behaviour is modelled
explicitly: dictionary getitem and the membership operator can fail
(TypeError / KeyError), file streams carry a read position, and I/O faults are
injected through boolean oracles.
-/

set_option autoImplicit false

namespace Harness

/-- Bytes of a file, one natural number per byte. -/
abbrev Bytes := List Nat

/-- A parsed JSON value, as produced by json.loads.  Numbers are modelled as
integers; no claim depends on float arithmetic, only on rendering. -/
inductive Json where
  | null
  | bool (b : Bool)
  | num (n : Int)
  | str (s : String)
  | arr (xs : List Json)
  | obj (kvs : List (String × Json))

/-- First-match association-list lookup (Python dict access order for our
purposes: one binding per key). -/
def alookup {α : Type} : List (String × α) → String → Option α
  | [], _ => none
  | (k, v) :: rest, key => if k = key then some v else alookup rest key

/-- Python getitem value['key'].  Returns none when the access raises
(KeyError on a dict without the key, TypeError on any non-dict value). -/
def jsonGet : Json → String → Option Json
  | Json.obj kvs, k => alookup kvs k
  | _, _ => none

/-- Python dict.get(key, default), reached only after a successful getitem on
the same value (so the non-dict branch is unreachable there and returns the
default). -/
def jsonGetD (j : Json) (k : String) (d : Json) : Json :=
  match j with
  | Json.obj kvs => (alookup kvs k).getD d
  | _ => d

/-- Equality test of a JSON value against a Python string constant, as used by
list membership: only a JSON string with the same characters compares equal. -/
def jsonIsStrEq : Json → String → Bool
  | Json.str t, k => t == k
  | _, _ => false

/-- Substring containment, Python needle in haystack on strings. -/
def strContains (haystack needle : String) : Bool :=
  decide (needle.toList <:+: haystack.toList)

/-- Python membership field in value.  some b when the test is defined
(dict: key membership; list: element membership; string: substring), none when
it raises TypeError (number, boolean, null are not iterable). -/
def pyContains : Json → String → Option Bool
  | Json.obj kvs, k => some (alookup kvs k).isSome
  | Json.arr xs, k => some (xs.any (fun j => jsonIsStrEq j k))
  | Json.str s, k => some (strContains s k)
  | _, _ => none

/-- Python str(TypeError) text raised by a membership test on value j. -/
def pyTypeName : Json → String
  | Json.null => "NoneType"
  | Json.bool _ => "bool"
  | Json.num _ => "int"
  | Json.str _ => "str"
  | Json.arr _ => "list"
  | Json.obj _ => "dict"

mutual

/-- Python repr of a parsed JSON value (used when rendering containers). -/
def pyRepr : Json → String
  | Json.null => "None"
  | Json.bool true => "True"
  | Json.bool false => "False"
  | Json.num n => toString n
  | Json.str s => "\x27" ++ s ++ "\x27"
  | Json.arr xs => "[" ++ pyReprList xs ++ "]"
  | Json.obj kvs => "\x7b" ++ pyReprObj kvs ++ "\x7d"

/-- Comma-separated reprs of list elements. -/
def pyReprList : List Json → String
  | [] => ""
  | [x] => pyRepr x
  | x :: y :: xs => pyRepr x ++ ", " ++ pyReprList (y :: xs)

/-- Comma-separated reprs of dict entries. -/
def pyReprObj : List (String × Json) → String
  | [] => ""
  | [(k, v)] => "\x27" ++ k ++ "\x27: " ++ pyRepr v
  | (k, v) :: p :: xs => "\x27" ++ k ++ "\x27: " ++ pyRepr v ++ ", " ++ pyReprObj (p :: xs)

end

/-- Python str of a parsed JSON value, as interpolated by f-strings: a string
renders as its own characters, anything else as its repr. -/
def pyStr : Json → String
  | Json.str s => s
  | j => pyRepr j

mutual

/-- Rendering of json.dumps(value, indent=2), modelled up to whitespace
(compact separators; no claim inspects transcript text). -/
def jsonDumps : Json → String
  | Json.null => "null"
  | Json.bool true => "true"
  | Json.bool false => "false"
  | Json.num n => toString n
  | Json.str s => "\"" ++ s ++ "\""
  | Json.arr xs => "[" ++ jsonDumpsList xs ++ "]"
  | Json.obj kvs => "\x7b" ++ jsonDumpsObj kvs ++ "\x7d"

/-- Comma-separated dumps of list elements. -/
def jsonDumpsList : List Json → String
  | [] => ""
  | [x] => jsonDumps x
  | x :: y :: xs => jsonDumps x ++ ", " ++ jsonDumpsList (y :: xs)

/-- Comma-separated dumps of dict entries. -/
def jsonDumpsObj : List (String × Json) → String
  | [] => ""
  | [(k, v)] => "\"" ++ k ++ "\": " ++ jsonDumps v
  | (k, v) :: p :: xs => "\"" ++ k ++ "\": " ++ jsonDumps v ++ ", " ++ jsonDumpsObj (p :: xs)

end

/-- UTF code points of a string, the byte content we store for text files. -/
def strBytes (s : String) : Bytes :=
  s.data.map Char.toNat

/-- One directory entry: a regular file with content and modification time,
or a subdirectory. -/
inductive Entry where
  | file (content : Bytes) (mtime : Nat)
  | dir

/-- Whether an entry is a regular file (os.path.isfile). -/
def Entry.isFile : Entry → Bool
  | Entry.file _ _ => true
  | Entry.dir => false

/-- The filesystem visible to the server: paths mapped to entries, in
directory-listing order. -/
abbrev FS := List (String × Entry)

/-- Read the entry at a path. -/
def fsLookup (fs : FS) (path : String) : Option Entry :=
  alookup fs path

/-- Write a regular file: overwrite in place, or append a new entry. -/
def fsWrite (fs : FS) (path : String) (c : Bytes) (m : Nat) : FS :=
  match fs with
  | [] => [(path, Entry.file c m)]
  | (n, e) :: rest =>
      if n = path then (path, Entry.file c m) :: rest
      else (n, e) :: fsWrite rest path c m

/-- The upload directory constant of the server. -/
def UPLOAD_DIR : String := "uploads"

/-- os.path.basename for the forward-slash paths this server builds: the
characters after the last path separator. -/
def pyBasename (s : String) : String :=
  String.mk (s.data.foldl (fun acc c => if c = '/' then [] else acc ++ [c]) [])

/-- An uploaded file stream: full payload plus current read position. -/
structure VideoStream where
  content : Bytes
  pos : Nat

/-- stream.read(): everything from the current position, leaving the
position at the end. -/
def VideoStream.readAll (st : VideoStream) : Bytes × VideoStream :=
  (st.content.drop st.pos, ⟨st.content, st.content.length⟩)

/-- stream.seek(n). -/
def VideoStream.seek (st : VideoStream) (n : Nat) : VideoStream :=
  ⟨st.content, n⟩

/-- The bytes a save of the stream would write: from the current position to
the end. -/
def VideoStream.rest (st : VideoStream) : Bytes :=
  st.content.drop st.pos

/-- One file part of a multipart request: the client-side filename and the
payload (delivered with the read position at the start). -/
structure FilePart where
  filename : String
  content : Bytes

/-- An incoming HTTP request to /verify as the handler sees it. -/
structure VerifyRequest where
  method : String
  contentType : Option String
  form : List (String × String)
  files : List (String × FilePart)

/-- The clock and mtime values a single request observes (each datetime.now()
call site gets its own value; ts is the strftime used for both filenames). -/
structure Clock where
  ts : String
  receivedAt : String
  txtDisplay : String
  txtIso : String
  mtime : Nat

/-- Outcome of the required-field loop over device_data. -/
inductive FieldCheck where
  | ok
  | missing (field : String)
  | typeError

/-- The list required_fields of the source, in its fixed order. -/
def required_fields : List String :=
  ["device_id", "is_compromised", "gps_location", "ip_address"]

/-- The validation loop for field in required_fields: stops at the first
membership test that is false (400) or that raises (escalates to the outer
handler). -/
def checkRequired (dd : Json) : List String → FieldCheck
  | [] => FieldCheck.ok
  | f :: rest =>
      match pyContains dd f with
      | none => FieldCheck.typeError
      | some false => FieldCheck.missing f
      | some true => checkRequired dd rest

/-- HTTP responses the /verify handler can produce. -/
structure SuccessResp where
  status : String
  message : String
  received_at : String
  device_id : Json
  video_size : Nat
  video_saved_as : String
  data_saved_as : String

/-- Response of the /verify route: the empty OPTIONS reply, a 400 client
error with its message, a 200 acknowledgment, or the 500 internal error with
the exception text. -/
inductive Resp where
  | emptyOk
  | err400 (msg : String)
  | ok200 (r : SuccessResp)
  | err500 (details : String)

/-- Whether the content-type gate passes: request.content_type is truthy and
contains the substring multipart/form-data. -/
def contentTypeValid : Option String → Bool
  | none => false
  | some ct => (ct != "") && strContains ct "multipart/form-data"

/-- save_to_txt_file of the source.  Writes the transcript text file; every
exception inside (the open failing, a getitem on device_data raising) is
caught and turns into a none result.  Because the file is opened before the
failing access, content written up to the failure point remains on disk.
ioOk injects an I/O fault at the open. -/
def save_to_txt_file (ioOk : Bool) (nowDisplay nowIso : String) (mtime : Nat)
    (device_data : Json) (video_filename : String) (video_size : Nat)
    (timestamp : String) (fs : FS) : Option String × FS :=
  match jsonGet device_data "device_id" with
  | none => (none, fs)
  | some did =>
  let txt_filename := "device_data_" ++ pyStr did ++ "_" ++ timestamp ++ ".txt"
  let txt_filepath := UPLOAD_DIR ++ "/" ++ txt_filename
  if ioOk = false then (none, fs) else
  let c1 := "=== DEVICE VERIFICATION DATA ===\n"
      ++ "Timestamp: " ++ nowDisplay ++ "\n"
      ++ "Received At: " ++ nowIso ++ "\n"
      ++ "\n--- DEVICE INFORMATION ---\n"
      ++ "Device ID: " ++ pyStr did ++ "\n"
  match jsonGet device_data "is_compromised" with
  | none => (none, fsWrite fs txt_filepath (strBytes c1) mtime)
  | some ic =>
  let c2 := c1 ++ "Is Compromised: " ++ pyStr ic ++ "\n"
      ++ "Platform: " ++ pyStr (jsonGetD device_data "platform" (Json.str "unknown")) ++ "\n"
  match jsonGet device_data "ip_address" with
  | none => (none, fsWrite fs txt_filepath (strBytes c2) mtime)
  | some ip =>
  let c3 := c2 ++ "IP Address: " ++ pyStr ip ++ "\n"
      ++ "\n--- LOCATION DATA ---\n"
  match jsonGet device_data "gps_location" with
  | none => (none, fsWrite fs txt_filepath (strBytes c3) mtime)
  | some gps =>
  match jsonGet gps "latitude" with
  | none => (none, fsWrite fs txt_filepath (strBytes c3) mtime)
  | some lat =>
  let c4 := c3 ++ "Latitude: " ++ pyStr lat ++ "\n"
  match jsonGet gps "longitude" with
  | none => (none, fsWrite fs txt_filepath (strBytes c4) mtime)
  | some lon =>
  let c5 := c4 ++ "Longitude: " ++ pyStr lon ++ "\n"
      ++ "\n--- VIDEO INFORMATION ---\n"
      ++ "Video Filename: " ++ video_filename ++ "\n"
      ++ "Video Size: " ++ toString video_size ++ " bytes\n"
      ++ "Video Saved As: mobile_liveness_" ++ pyStr did ++ "_" ++ timestamp ++ ".mp4\n"
      ++ "\n--- RAW JSON DATA ---\n"
      ++ jsonDumps device_data
  (some txt_filepath, fsWrite fs txt_filepath (strBytes c5) mtime)

/-- verify_endpoint of the source: the POST /verify handler.  parse stands
for json.loads on the data form field (none on JSONDecodeError); videoOk and
txtOk inject I/O faults at the video save and the transcript open; clk holds
the datetime.now() observations.  Returns the HTTP response and the updated
filesystem. -/
def verify_endpoint (parse : String → Option Json) (clk : Clock)
    (videoOk txtOk : Bool) (req : VerifyRequest) (fs : FS) : Resp × FS :=
  if req.method = "OPTIONS" then (Resp.emptyOk, fs) else
  if contentTypeValid req.contentType = false then
    (Resp.err400 "Content type must be multipart/form-data", fs) else
  match alookup req.form "data" with
  | none => (Resp.err400 "Missing \x27data\x27 part", fs)
  | some json_data =>
  match parse json_data with
  | none => (Resp.err400 "Invalid JSON in \x27data\x27 part", fs)
  | some device_data =>
  match checkRequired device_data required_fields with
  | FieldCheck.typeError =>
      (Resp.err500 ("argument of type \x27" ++ pyTypeName device_data
        ++ "\x27 is not iterable"), fs)
  | FieldCheck.missing f =>
      (Resp.err400 ("Missing required field: " ++ f), fs)
  | FieldCheck.ok =>
  match alookup req.files "liveness_video" with
  | none => (Resp.err400 "Missing \x27liveness_video\x27 file", fs)
  | some video_file =>
  if video_file.filename = "" then
    (Resp.err400 "No video file selected", fs) else
  match jsonGet device_data "device_id" with
  | none => (Resp.err500 "\x27device_id\x27", fs)
  | some did =>
  match jsonGet device_data "is_compromised" with
  | none => (Resp.err500 "\x27is_compromised\x27", fs)
  | some _ =>
  match jsonGet device_data "gps_location" with
  | none => (Resp.err500 "\x27gps_location\x27", fs)
  | some _ =>
  match jsonGet device_data "ip_address" with
  | none => (Resp.err500 "\x27ip_address\x27", fs)
  | some _ =>
  let st0 : VideoStream := ⟨video_file.content, 0⟩
  let rd := st0.readAll
  let video_size := rd.1.length
  let st2 := rd.2.seek 0
  let timestamp := clk.ts
  let video_filename := "mobile_liveness_" ++ pyStr did ++ "_" ++ timestamp ++ ".mp4"
  let video_filepath := UPLOAD_DIR ++ "/" ++ video_filename
  if videoOk = false then (Resp.err500 "video save failed", fs) else
  let fs1 := fsWrite fs video_filepath st2.rest clk.mtime
  let sres := save_to_txt_file txtOk clk.txtDisplay clk.txtIso clk.mtime
      device_data video_file.filename video_size timestamp fs1
  (Resp.ok200
    { status := "received_ok"
      message := "Successfully received both JSON data and video file from mobile"
      received_at := clk.receivedAt
      device_id := did
      video_size := video_size
      video_saved_as := video_filename
      data_saved_as := match sres.1 with | some p => pyBasename p | none => "failed" },
   sres.2)

/-- One row of the /files listing. -/
structure FileEntry where
  name : String
  size : Nat
  modified : String

/-- Body of a successful /files response. -/
structure ListResp where
  files : List FileEntry
  count : Nat

/-- list_files of the source: enumerate the upload directory, keep regular
files only, report name, byte size and ISO-8601 mtime (isoOf renders an mtime),
and the count.  ioOk injects a directory-read fault, answered with a 500. -/
def list_files (ioOk : Bool) (isoOf : Nat → String) (fs : FS) :
    Except String ListResp :=
  if ioOk = false then Except.error "listdir failed" else
  let files := fs.filterMap (fun p =>
    match p.2 with
    | Entry.file c m => some (FileEntry.mk p.1 c.length (isoOf m))
    | Entry.dir => none)
  Except.ok ⟨files, files.length⟩

/-- Response of the /download route. -/
inductive DownloadResp where
  | ok (content : Bytes)
  | notFound (errMsg : String)

/-- download_file of the source: serve UPLOAD_DIR/filename by exact name via
send_from_directory; any failure (no such regular file) is caught and turned
into a 404 with the exception text. -/
def download_file (fs : FS) (filename : String) : DownloadResp :=
  match fsLookup fs (UPLOAD_DIR ++ "/" ++ filename) with
  | some (Entry.file c _) => DownloadResp.ok c
  | _ => DownloadResp.notFound ("404 Not Found: " ++ filename)

/-- HTTP status code equivalent of a /verify response. -/
def Resp.statusCode : Resp → Nat
  | Resp.emptyOk => 200
  | Resp.err400 _ => 400
  | Resp.ok200 _ => 200
  | Resp.err500 _ => 500

/-- Whether a /verify response is the 400 naming a missing required field. -/
def Resp.namesMissingField : Resp → Bool
  | Resp.err400 m => "Missing required field: ".toList.isPrefixOf m.toList
  | _ => false

/-- Byte size of an entry (0 for a directory, never consulted there). -/
def Entry.sizeBytes : Entry → Nat
  | Entry.file c _ => c.length
  | Entry.dir => 0

/-- Modification time of an entry (0 for a directory, never consulted
there). -/
def Entry.mtimeVal : Entry → Nat
  | Entry.file _ m => m
  | Entry.dir => 0

/-- A well-formed GPS object, as in the worked example of the spec. -/
def sampleGps : Json :=
  Json.obj [("latitude", Json.num 1), ("longitude", Json.num 2)]

/-- The worked example metadata of the spec: device abc123, not compromised,
IP 1.2.3.4, complete GPS location. -/
def sampleDD : Json :=
  Json.obj [("device_id", Json.str "abc123"), ("is_compromised", Json.bool false),
    ("gps_location", sampleGps), ("ip_address", Json.str "1.2.3.4")]

/-- A fixed clock observation for concrete runs. -/
def sampleClk : Clock :=
  ⟨"20260101_120000", "2026-01-01T12:00:00", "2026-01-01 12:00:00",
    "2026-01-01T12:00:00.000001", 7⟩

/-- A ten-byte video payload named clip.mp4, as in the spec's example. -/
def sampleVid : FilePart :=
  ⟨"clip.mp4", [0, 1, 2, 3, 4, 5, 6, 7, 8, 9]⟩

/-- A well-formed multipart request carrying the data field and the video. -/
def sampleReq : VerifyRequest :=
  ⟨"POST", some "multipart/form-data; boundary=xyz", [("data", "payload")],
    [("liveness_video", sampleVid)]⟩

/-- A request with a non-multipart content type. -/
def badCTReq : VerifyRequest :=
  ⟨"POST", some "application/json", [("data", "payload")], []⟩

/-- A JSON decoder stub that decodes every data field to the given value. -/
def parseTo (j : Json) : String → Option Json :=
  fun _ => some j

/-- A JSON decoder stub that fails on every data field (malformed JSON). -/
def parseFail : String → Option Json :=
  fun _ => none

/-- Metadata whose gps_location object lacks the latitude key. -/
def noLatDD : Json :=
  Json.obj [("device_id", Json.str "abc123"), ("is_compromised", Json.bool false),
    ("gps_location", Json.obj [("longitude", Json.num 2)]),
    ("ip_address", Json.str "1.2.3.4")]

/-- Metadata missing gps_location and ip_address. -/
def missingFieldDD : Json :=
  Json.obj [("device_id", Json.str "a"), ("is_compromised", Json.bool true)]

/-- Metadata where all four required keys are present but bound to degenerate
values: null device id, empty-string compromise flag, numeric gps_location. -/
def oddValuesDD : Json :=
  Json.obj [("device_id", Json.null), ("is_compromised", Json.str ""),
    ("gps_location", Json.num 3), ("ip_address", Json.null)]

/-!  Infrastructure lemmas about the filesystem model and path strings. -/

/-- Reading back the path just written yields the written file. -/
theorem fsLookup_fsWrite_self (fs : FS) (p : String) (c : Bytes) (m : Nat) :
    fsLookup (fsWrite fs p c m) p = some (Entry.file c m) := by
  induction fs with
  | nil => simp [fsWrite, fsLookup, alookup]
  | cons hd tl ih =>
      obtain ⟨n, e⟩ := hd
      by_cases h : n = p
      · simp [fsWrite, fsLookup, alookup, h]
      · simp [fsWrite, fsLookup, alookup, h] at ih ⊢
        exact ih

/-- Writing one path leaves every other path unchanged. -/
theorem fsLookup_fsWrite_ne (fs : FS) (p q : String) (c : Bytes) (m : Nat)
    (h : q ≠ p) : fsLookup (fsWrite fs p c m) q = fsLookup fs q := by
  induction fs with
  | nil => simp [fsWrite, fsLookup, alookup, h, Ne.symm h]
  | cons hd tl ih =>
      obtain ⟨n, e⟩ := hd
      by_cases hn : n = p
      · subst hn
        simp [fsWrite, fsLookup, alookup, h, Ne.symm h]
      · simp [fsWrite, fsLookup, alookup, hn] at ih ⊢
        by_cases hq : n = q <;> simp [hq, ih]

/-- A video path and a transcript path never coincide: the character after
the directory prefix differs. -/
theorem video_path_ne_txt_path (x ts y ts2 : String) :
    UPLOAD_DIR ++ "/" ++ ("mobile_liveness_" ++ x ++ "_" ++ ts ++ ".mp4") ≠
      UPLOAD_DIR ++ "/" ++ ("device_data_" ++ y ++ "_" ++ ts2 ++ ".txt") := by
  intro h
  have h2 := congrArg (fun s => s.data.get? 8) h
  simp [UPLOAD_DIR, String.data_append] at h2

/-- Folding the basename accumulator over separator-free characters appends
them all. -/
theorem basename_foldl_no_slash (l : List Char) (acc : List Char)
    (h : ('/' : Char) ∉ l) :
    l.foldl (fun acc c => if c = '/' then [] else acc ++ [c]) acc = acc ++ l := by
  induction l generalizing acc with
  | nil => simp
  | cons c tl ih =>
      have hc : c ≠ '/' := fun hc => h (hc ▸ List.mem_cons_self c tl)
      have htl : ('/' : Char) ∉ tl := fun ht => h (List.mem_cons_of_mem c ht)
      simp [List.foldl_cons, hc, ih _ htl]

/-- basename of directory-slash-filename is the filename when the filename
contains no separator. -/
theorem pyBasename_dir (u fn : String) (h : ('/' : Char) ∉ fn.data) :
    pyBasename (u ++ "/" ++ fn) = fn := by
  unfold pyBasename
  rw [String.data_append, String.data_append, List.foldl_append, List.foldl_append]
  have h1 : ∀ a : List Char,
      ("/" : String).data.foldl (fun acc c => if c = '/' then [] else acc ++ [c]) a
        = [] := by
    intro a
    simp [show ("/" : String).data = ['/'] from rfl]
  rw [h1, basename_foldl_no_slash fn.data [] h, List.nil_append]

/-- On a JSON object the required-field loop stops exactly at the first key
of the list that is absent, and passes when none is absent. -/
theorem checkRequired_obj (kvs : List (String × Json)) (l : List String) :
    checkRequired (Json.obj kvs) l =
      match l.find? (fun f => (alookup kvs f).isNone) with
      | some f => FieldCheck.missing f
      | none => FieldCheck.ok := by
  induction l with
  | nil => rfl
  | cons f tl ih =>
      cases halk : alookup kvs f with
      | none => simp [checkRequired, pyContains, halk, List.find?]
      | some v => simp [checkRequired, pyContains, halk, List.find?, ih]

/-- When every access succeeds and the open does not fail, save_to_txt_file
reports the transcript path and writes the transcript there. -/
theorem save_to_txt_file_ok (d i : String) (m : Nat) (dd : Json)
    (vfn : String) (vs : Nat) (ts : String) (fs : FS)
    (did ic ip gps lat lon : Json)
    (h1 : jsonGet dd "device_id" = some did)
    (h2 : jsonGet dd "is_compromised" = some ic)
    (h3 : jsonGet dd "ip_address" = some ip)
    (h4 : jsonGet dd "gps_location" = some gps)
    (h5 : jsonGet gps "latitude" = some lat)
    (h6 : jsonGet gps "longitude" = some lon) :
    ∃ c : Bytes,
      save_to_txt_file true d i m dd vfn vs ts fs =
        (some (UPLOAD_DIR ++ "/" ++ ("device_data_" ++ pyStr did ++ "_" ++ ts ++ ".txt")),
         fsWrite fs
           (UPLOAD_DIR ++ "/" ++ ("device_data_" ++ pyStr did ++ "_" ++ ts ++ ".txt"))
           c m) := by
  simp only [save_to_txt_file, h1, h2, h3, h4, h5, h6,
    if_neg (show ¬(true = false) by simp)]
  exact ⟨_, rfl⟩

/-- Whatever happens inside save_to_txt_file when the device id is readable,
the filesystem is either untouched or changed only at the transcript path of
the device. -/
theorem save_to_txt_file_fs (io : Bool) (d i : String) (m : Nat) (dd : Json)
    (vfn : String) (vs : Nat) (ts : String) (fs : FS) (did : Json)
    (h1 : jsonGet dd "device_id" = some did) :
    (save_to_txt_file io d i m dd vfn vs ts fs).2 = fs ∨
      ∃ c, (save_to_txt_file io d i m dd vfn vs ts fs).2 =
        fsWrite fs
          (UPLOAD_DIR ++ "/" ++ ("device_data_" ++ pyStr did ++ "_" ++ ts ++ ".txt"))
          c m := by
  by_cases hio : io = false
  · left
    simp [save_to_txt_file, h1, hio]
  · have hio2 : io = true := by cases io <;> simp_all
    subst hio2
    right
    simp only [save_to_txt_file, h1, if_neg (show ¬(true = false) by simp)]
    repeat' split
    all_goals exact ⟨_, rfl⟩

/-- Symbolic execution of the /verify handler on a request that passes every
validation gate, with the video save succeeding: the 200 acknowledgment, with
the filesystem first gaining the video file and then whatever the transcript
write does. -/
theorem verify_run (parse : String → Option Json) (clk : Clock) (txtOk : Bool)
    (req : VerifyRequest) (fs : FS) (ds : String) (dd did ic gps ip : Json)
    (vf : FilePart)
    (hm : ¬ req.method = "OPTIONS")
    (hct : contentTypeValid req.contentType = true)
    (hd : alookup req.form "data" = some ds)
    (hp : parse ds = some dd)
    (hchk : checkRequired dd required_fields = FieldCheck.ok)
    (hv : alookup req.files "liveness_video" = some vf)
    (hfn : ¬ vf.filename = "")
    (h1 : jsonGet dd "device_id" = some did)
    (h2 : jsonGet dd "is_compromised" = some ic)
    (h3 : jsonGet dd "gps_location" = some gps)
    (h4 : jsonGet dd "ip_address" = some ip) :
    verify_endpoint parse clk true txtOk req fs =
      (Resp.ok200
        { status := "received_ok"
          message := "Successfully received both JSON data and video file from mobile"
          received_at := clk.receivedAt
          device_id := did
          video_size := vf.content.length
          video_saved_as := "mobile_liveness_" ++ pyStr did ++ "_" ++ clk.ts ++ ".mp4"
          data_saved_as :=
            match (save_to_txt_file txtOk clk.txtDisplay clk.txtIso clk.mtime dd
                vf.filename vf.content.length clk.ts
                (fsWrite fs
                  (UPLOAD_DIR ++ "/" ++
                    ("mobile_liveness_" ++ pyStr did ++ "_" ++ clk.ts ++ ".mp4"))
                  vf.content clk.mtime)).1 with
            | some p => pyBasename p
            | none => "failed" },
       (save_to_txt_file txtOk clk.txtDisplay clk.txtIso clk.mtime dd vf.filename
          vf.content.length clk.ts
          (fsWrite fs
            (UPLOAD_DIR ++ "/" ++
              ("mobile_liveness_" ++ pyStr did ++ "_" ++ clk.ts ++ ".mp4"))
            vf.content clk.mtime)).2) := by
  simp only [verify_endpoint, if_neg hm, hct, hd, hp, hchk, hv, if_neg hfn,
    h1, h2, h3, h4, VideoStream.readAll, VideoStream.seek, VideoStream.rest,
    List.drop_zero]
  simp

/-- C1: for every valid submission, the video bytes persisted to disk are
byte-identical to the submitted payload and the response's video_size equals
the payload's byte length: measuring the size by reading the whole stream and
then resetting the read position does not truncate or corrupt the bytes later
written. -/
theorem C1_video_size_and_roundtrip
    (parse : String → Option Json) (clk : Clock) (txtOk : Bool)
    (req : VerifyRequest) (fs : FS) (ds : String) (dd did ic gps ip : Json)
    (vf : FilePart)
    (hm : ¬ req.method = "OPTIONS")
    (hct : contentTypeValid req.contentType = true)
    (hd : alookup req.form "data" = some ds)
    (hp : parse ds = some dd)
    (hchk : checkRequired dd required_fields = FieldCheck.ok)
    (hv : alookup req.files "liveness_video" = some vf)
    (hfn : ¬ vf.filename = "")
    (h1 : jsonGet dd "device_id" = some did)
    (h2 : jsonGet dd "is_compromised" = some ic)
    (h3 : jsonGet dd "gps_location" = some gps)
    (h4 : jsonGet dd "ip_address" = some ip) :
    ∃ r fs2, verify_endpoint parse clk true txtOk req fs = (Resp.ok200 r, fs2) ∧
      r.video_size = vf.content.length ∧
      fsLookup fs2 (UPLOAD_DIR ++ "/" ++ r.video_saved_as) =
        some (Entry.file vf.content clk.mtime) := by
  rw [verify_run parse clk txtOk req fs ds dd did ic gps ip vf
    hm hct hd hp hchk hv hfn h1 h2 h3 h4]
  refine ⟨_, _, rfl, rfl, ?_⟩
  rcases save_to_txt_file_fs txtOk clk.txtDisplay clk.txtIso clk.mtime dd
      vf.filename vf.content.length clk.ts
      (fsWrite fs
        (UPLOAD_DIR ++ "/" ++ ("mobile_liveness_" ++ pyStr did ++ "_" ++ clk.ts ++ ".mp4"))
        vf.content clk.mtime) did h1 with heq | ⟨c, heq⟩
  · rw [heq]
    exact fsLookup_fsWrite_self _ _ _ _
  · rw [heq,
      fsLookup_fsWrite_ne _ _ _ _ _
        (video_path_ne_txt_path (pyStr did) clk.ts (pyStr did) clk.ts)]
    exact fsLookup_fsWrite_self _ _ _ _

/-- C1 witness: the spec's worked example (device abc123, ten payload bytes)
run concretely. -/
theorem C1_witness :
    ∃ r fs2, verify_endpoint (parseTo sampleDD) sampleClk true true sampleReq []
        = (Resp.ok200 r, fs2) ∧
      r.video_size = sampleVid.content.length ∧
      fsLookup fs2 (UPLOAD_DIR ++ "/" ++ r.video_saved_as) =
        some (Entry.file sampleVid.content sampleClk.mtime) :=
  C1_video_size_and_roundtrip (parseTo sampleDD) sampleClk true sampleReq []
    "payload" sampleDD (Json.str "abc123") (Json.bool false) sampleGps
    (Json.str "1.2.3.4") sampleVid (by decide) rfl rfl rfl rfl rfl (by decide)
    rfl rfl rfl rfl

/-- C2 counterexample: the data field decodes to the JSON number 5, which is
valid JSON lacking every required key, yet the response is the 500 internal
error raised by the membership test on a non-iterable, not a 400 naming the
first missing field. -/
theorem C2_counterexample :
    verify_endpoint (parseTo (Json.num 5)) sampleClk true true sampleReq [] =
      (Resp.err500 "argument of type \x27int\x27 is not iterable", []) := rfl

/-- C2 amended: for every multipart submission whose data field decodes to a
JSON object lacking at least one required key, the response is the 400 naming
exactly the first missing key in the fixed order of required_fields, and no
files are written. -/
theorem C2_first_missing_field
    (parse : String → Option Json) (clk : Clock) (videoOk txtOk : Bool)
    (req : VerifyRequest) (fs : FS) (ds : String)
    (kvs : List (String × Json)) (f : String)
    (hm : ¬ req.method = "OPTIONS")
    (hct : contentTypeValid req.contentType = true)
    (hd : alookup req.form "data" = some ds)
    (hp : parse ds = some (Json.obj kvs))
    (hf : required_fields.find? (fun f2 => (alookup kvs f2).isNone) = some f) :
    verify_endpoint parse clk videoOk txtOk req fs =
      (Resp.err400 ("Missing required field: " ++ f), fs) := by
  have hchk : checkRequired (Json.obj kvs) required_fields = FieldCheck.missing f := by
    rw [checkRequired_obj, hf]
  simp only [verify_endpoint, if_neg hm, hct, hd, hp, hchk]
  simp

/-- C2 witness: metadata with device_id and is_compromised only is rejected
with the 400 naming gps_location, the first missing key, and the filesystem
is unchanged. -/
theorem C2_witness :
    verify_endpoint (parseTo missingFieldDD) sampleClk true true sampleReq [] =
      (Resp.err400 ("Missing required field: " ++ "gps_location"), []) :=
  C2_first_missing_field (parseTo missingFieldDD) sampleClk true true sampleReq
    [] "payload" [("device_id", Json.str "a"), ("is_compromised", Json.bool true)]
    "gps_location" (by decide) rfl rfl rfl rfl

/-- C3: for every otherwise-valid submission where the transcript write fails,
the handler still answers 200 received_ok with the video persisted and
data_saved_as equal to the string failed; the transcript failure never aborts
the request. -/
theorem C3_transcript_failure_degrades
    (parse : String → Option Json) (clk : Clock) (txtOk : Bool)
    (req : VerifyRequest) (fs : FS) (ds : String) (dd did ic gps ip : Json)
    (vf : FilePart)
    (hm : ¬ req.method = "OPTIONS")
    (hct : contentTypeValid req.contentType = true)
    (hd : alookup req.form "data" = some ds)
    (hp : parse ds = some dd)
    (hchk : checkRequired dd required_fields = FieldCheck.ok)
    (hv : alookup req.files "liveness_video" = some vf)
    (hfn : ¬ vf.filename = "")
    (h1 : jsonGet dd "device_id" = some did)
    (h2 : jsonGet dd "is_compromised" = some ic)
    (h3 : jsonGet dd "gps_location" = some gps)
    (h4 : jsonGet dd "ip_address" = some ip)
    (hs : (save_to_txt_file txtOk clk.txtDisplay clk.txtIso clk.mtime dd
        vf.filename vf.content.length clk.ts
        (fsWrite fs
          (UPLOAD_DIR ++ "/" ++ ("mobile_liveness_" ++ pyStr did ++ "_" ++ clk.ts ++ ".mp4"))
          vf.content clk.mtime)).1 = none) :
    ∃ r fs2, verify_endpoint parse clk true txtOk req fs = (Resp.ok200 r, fs2) ∧
      r.status = "received_ok" ∧
      r.data_saved_as = "failed" ∧
      fsLookup fs2 (UPLOAD_DIR ++ "/" ++ r.video_saved_as) =
        some (Entry.file vf.content clk.mtime) := by
  rw [verify_run parse clk txtOk req fs ds dd did ic gps ip vf
    hm hct hd hp hchk hv hfn h1 h2 h3 h4]
  refine ⟨_, _, rfl, rfl, ?_, ?_⟩
  · show (match (save_to_txt_file txtOk clk.txtDisplay clk.txtIso clk.mtime dd
        vf.filename vf.content.length clk.ts _).1 with
      | some p => pyBasename p
      | none => "failed") = "failed"
    rw [hs]
  · rcases save_to_txt_file_fs txtOk clk.txtDisplay clk.txtIso clk.mtime dd
        vf.filename vf.content.length clk.ts
        (fsWrite fs
          (UPLOAD_DIR ++ "/" ++ ("mobile_liveness_" ++ pyStr did ++ "_" ++ clk.ts ++ ".mp4"))
          vf.content clk.mtime) did h1 with heq | ⟨c, heq⟩
    · rw [heq]
      exact fsLookup_fsWrite_self _ _ _ _
    · rw [heq,
        fsLookup_fsWrite_ne _ _ _ _ _
          (video_path_ne_txt_path (pyStr did) clk.ts (pyStr did) clk.ts)]
      exact fsLookup_fsWrite_self _ _ _ _

/-- C3 witness: the worked example with the transcript open failing (injected
I/O fault): still a 200 with the video stored and data_saved_as failed. -/
theorem C3_witness :
    ∃ r fs2, verify_endpoint (parseTo sampleDD) sampleClk true false sampleReq []
        = (Resp.ok200 r, fs2) ∧
      r.status = "received_ok" ∧
      r.data_saved_as = "failed" ∧
      fsLookup fs2 (UPLOAD_DIR ++ "/" ++ r.video_saved_as) =
        some (Entry.file sampleVid.content sampleClk.mtime) :=
  C3_transcript_failure_degrades (parseTo sampleDD) sampleClk false sampleReq []
    "payload" sampleDD (Json.str "abc123") (Json.bool false) sampleGps
    (Json.str "1.2.3.4") sampleVid (by decide) rfl rfl rfl rfl rfl (by decide)
    rfl rfl rfl rfl rfl

/-- C4 counterexample: a submission that passes validation but whose
gps_location lacks latitude is answered with HTTP status 200, not the claimed
500 internal error: the faulty access happens inside save_to_txt_file's own
catch-all handler. -/
theorem C4_counterexample :
    Resp.statusCode
      (verify_endpoint (parseTo noLatDD) sampleClk true true sampleReq []).1
      = 200 := rfl

/-- C4 amended: for every submission that passes validation but whose
gps_location lacks the latitude or the longitude key, the direct key access
raises inside save_to_txt_file, is swallowed there, and the request is
reported as a 200 degraded success with data_saved_as equal to failed. -/
theorem C4_missing_coordinate_degrades
    (parse : String → Option Json) (clk : Clock) (txtOk : Bool)
    (req : VerifyRequest) (fs : FS) (ds : String) (dd did ic gps ip : Json)
    (vf : FilePart)
    (hm : ¬ req.method = "OPTIONS")
    (hct : contentTypeValid req.contentType = true)
    (hd : alookup req.form "data" = some ds)
    (hp : parse ds = some dd)
    (hchk : checkRequired dd required_fields = FieldCheck.ok)
    (hv : alookup req.files "liveness_video" = some vf)
    (hfn : ¬ vf.filename = "")
    (h1 : jsonGet dd "device_id" = some did)
    (h2 : jsonGet dd "is_compromised" = some ic)
    (h3 : jsonGet dd "gps_location" = some gps)
    (h4 : jsonGet dd "ip_address" = some ip)
    (h5 : jsonGet gps "latitude" = none ∨ jsonGet gps "longitude" = none) :
    ∃ r fs2, verify_endpoint parse clk true txtOk req fs = (Resp.ok200 r, fs2) ∧
      Resp.statusCode (Resp.ok200 r) = 200 ∧
      r.data_saved_as = "failed" := by
  rw [verify_run parse clk txtOk req fs ds dd did ic gps ip vf
    hm hct hd hp hchk hv hfn h1 h2 h3 h4]
  refine ⟨_, _, rfl, rfl, ?_⟩
  have hs : (save_to_txt_file txtOk clk.txtDisplay clk.txtIso clk.mtime dd
      vf.filename vf.content.length clk.ts
      (fsWrite fs
        (UPLOAD_DIR ++ "/" ++ ("mobile_liveness_" ++ pyStr did ++ "_" ++ clk.ts ++ ".mp4"))
        vf.content clk.mtime)).1 = none := by
    cases htx : txtOk with
    | false => simp [save_to_txt_file, h1, htx]
    | true =>
        rcases h5 with h5 | h5
        · simp [save_to_txt_file, h1, h2, h3, h4, h5, htx]
        · cases hlat : jsonGet gps "latitude" with
          | none => simp [save_to_txt_file, h1, h2, h3, h4, hlat, htx]
          | some lat => simp [save_to_txt_file, h1, h2, h3, h4, hlat, h5, htx]
  show (match (save_to_txt_file txtOk clk.txtDisplay clk.txtIso clk.mtime dd
      vf.filename vf.content.length clk.ts _).1 with
    | some p => pyBasename p
    | none => "failed") = "failed"
  rw [hs]

/-- C4 amended witness: the concrete no-latitude metadata yields a 200 with
data_saved_as failed. -/
theorem C4_witness :
    ∃ r fs2, verify_endpoint (parseTo noLatDD) sampleClk true true sampleReq []
        = (Resp.ok200 r, fs2) ∧
      Resp.statusCode (Resp.ok200 r) = 200 ∧
      r.data_saved_as = "failed" :=
  C4_missing_coordinate_degrades (parseTo noLatDD) sampleClk true sampleReq []
    "payload" noLatDD (Json.str "abc123") (Json.bool false)
    (Json.obj [("longitude", Json.num 2)]) (Json.str "1.2.3.4") sampleVid
    (by decide) rfl rfl rfl rfl rfl (by decide) rfl rfl rfl rfl (Or.inl rfl)

/-- C5: a non-multipart content type is rejected with the content-type error
whatever the rest of the request holds, and a data field whose JSON decoding
fails is rejected with the invalid-JSON error; in both cases the filesystem
is unchanged. -/
theorem C5_content_type_and_invalid_json
    (parse : String → Option Json) (clk : Clock) (videoOk txtOk : Bool)
    (req : VerifyRequest) (fs : FS) :
    (¬ req.method = "OPTIONS" → contentTypeValid req.contentType = false →
      verify_endpoint parse clk videoOk txtOk req fs =
        (Resp.err400 "Content type must be multipart/form-data", fs)) ∧
    (∀ ds, ¬ req.method = "OPTIONS" → contentTypeValid req.contentType = true →
      alookup req.form "data" = some ds → parse ds = none →
      verify_endpoint parse clk videoOk txtOk req fs =
        (Resp.err400 "Invalid JSON in \x27data\x27 part", fs)) := by
  constructor
  · intro hm hct
    simp [verify_endpoint, if_neg hm, hct]
  · intro ds hm hct hd hp
    simp [verify_endpoint, if_neg hm, hct, hd, hp]

/-- A five-part concatenation contains no path separator when none of its
parts does. -/
theorem no_slash_in_name (pre mid suf a b : String)
    (hpre : ('/' : Char) ∉ pre.data) (hmid : ('/' : Char) ∉ mid.data)
    (hsuf : ('/' : Char) ∉ suf.data)
    (ha : ('/' : Char) ∉ a.data) (hb : ('/' : Char) ∉ b.data) :
    ('/' : Char) ∉ (pre ++ a ++ mid ++ b ++ suf).data := by
  intro hmem
  rw [String.data_append, String.data_append, String.data_append,
    String.data_append] at hmem
  simp only [List.mem_append] at hmem
  rcases hmem with ((((h | h) | h) | h) | h)
  exacts [hpre h, ha h, hmid h, hb h, hsuf h]

/-- The /files enumeration is exactly the regular files of the directory in
order, rendered to name, size and modification time. -/
theorem filterMap_files (isoOf : Nat → String) (fs : FS) :
    fs.filterMap (fun p =>
        match p.2 with
        | Entry.file c m => some (FileEntry.mk p.1 c.length (isoOf m))
        | Entry.dir => none)
      = (fs.filter (fun p => p.2.isFile)).map
          (fun p => FileEntry.mk p.1 p.2.sizeBytes (isoOf p.2.mtimeVal)) := by
  induction fs with
  | nil => rfl
  | cons hd tl ih =>
      obtain ⟨n, e⟩ := hd
      cases e <;>
        simp [List.filterMap_cons, List.filter_cons, Entry.isFile,
          Entry.sizeBytes, Entry.mtimeVal, ih]

/-- C5 witness: a JSON-typed request is answered with the content-type error,
and a multipart request whose data does not decode is answered with the
invalid-JSON error; both leave the empty filesystem empty. -/
theorem C5_witness :
    verify_endpoint (parseTo sampleDD) sampleClk true true badCTReq [] =
        (Resp.err400 "Content type must be multipart/form-data", []) ∧
      verify_endpoint parseFail sampleClk true true sampleReq [] =
        (Resp.err400 "Invalid JSON in \x27data\x27 part", []) :=
  ⟨(C5_content_type_and_invalid_json (parseTo sampleDD) sampleClk true true
      badCTReq []).1 (by decide) rfl,
   (C5_content_type_and_invalid_json parseFail sampleClk true true
      sampleReq []).2 "payload" (by decide) rfl rfl rfl⟩

/-- C6: every fully successful submission computes one shared timestamp,
names the video mobile_liveness_-device-_-timestamp-.mp4 and the transcript
device_data_-device-_-timestamp-.txt with the same device id and timestamp,
stores both files under those names, and reports exactly those names as
video_saved_as and data_saved_as. -/
theorem C6_artifact_pair_shared_timestamp
    (parse : String → Option Json) (clk : Clock)
    (req : VerifyRequest) (fs : FS) (ds : String) (dd did ic gps ip lat lon : Json)
    (vf : FilePart)
    (hm : ¬ req.method = "OPTIONS")
    (hct : contentTypeValid req.contentType = true)
    (hd : alookup req.form "data" = some ds)
    (hp : parse ds = some dd)
    (hchk : checkRequired dd required_fields = FieldCheck.ok)
    (hv : alookup req.files "liveness_video" = some vf)
    (hfn : ¬ vf.filename = "")
    (h1 : jsonGet dd "device_id" = some did)
    (h2 : jsonGet dd "is_compromised" = some ic)
    (h3 : jsonGet dd "gps_location" = some gps)
    (h4 : jsonGet dd "ip_address" = some ip)
    (h5 : jsonGet gps "latitude" = some lat)
    (h6 : jsonGet gps "longitude" = some lon)
    (hsd : ('/' : Char) ∉ (pyStr did).data)
    (hst : ('/' : Char) ∉ clk.ts.data) :
    ∃ r fs2, verify_endpoint parse clk true true req fs = (Resp.ok200 r, fs2) ∧
      r.video_saved_as = "mobile_liveness_" ++ pyStr did ++ "_" ++ clk.ts ++ ".mp4" ∧
      r.data_saved_as = "device_data_" ++ pyStr did ++ "_" ++ clk.ts ++ ".txt" ∧
      fsLookup fs2 (UPLOAD_DIR ++ "/" ++ r.video_saved_as) =
        some (Entry.file vf.content clk.mtime) ∧
      (∃ c, fsLookup fs2 (UPLOAD_DIR ++ "/" ++ r.data_saved_as) =
        some (Entry.file c clk.mtime)) := by
  have hno : ('/' : Char) ∉ ("device_data_" ++ pyStr did ++ "_" ++ clk.ts ++ ".txt").data :=
    no_slash_in_name "device_data_" "_" ".txt" (pyStr did) clk.ts
      (by decide) (by decide) (by decide) hsd hst
  obtain ⟨c, hsave⟩ := save_to_txt_file_ok clk.txtDisplay clk.txtIso clk.mtime dd
    vf.filename vf.content.length clk.ts
    (fsWrite fs
      (UPLOAD_DIR ++ "/" ++ ("mobile_liveness_" ++ pyStr did ++ "_" ++ clk.ts ++ ".mp4"))
      vf.content clk.mtime) did ic ip gps lat lon h1 h2 h4 h3 h5 h6
  rw [verify_run parse clk true req fs ds dd did ic gps ip vf
    hm hct hd hp hchk hv hfn h1 h2 h3 h4]
  refine ⟨_, _, rfl, rfl, ?_, ?_, ?_⟩
  · show (match (save_to_txt_file true clk.txtDisplay clk.txtIso clk.mtime dd
        vf.filename vf.content.length clk.ts _).1 with
      | some p => pyBasename p
      | none => "failed") = "device_data_" ++ pyStr did ++ "_" ++ clk.ts ++ ".txt"
    rw [hsave]
    exact pyBasename_dir UPLOAD_DIR _ hno
  · show fsLookup (save_to_txt_file true clk.txtDisplay clk.txtIso clk.mtime dd
        vf.filename vf.content.length clk.ts _).2 _ = _
    rw [hsave,
      fsLookup_fsWrite_ne _ _ _ _ _
        (video_path_ne_txt_path (pyStr did) clk.ts (pyStr did) clk.ts)]
    exact fsLookup_fsWrite_self _ _ _ _
  · refine ⟨c, ?_⟩
    show fsLookup (save_to_txt_file true clk.txtDisplay clk.txtIso clk.mtime dd
        vf.filename vf.content.length clk.ts _).2
      (UPLOAD_DIR ++ "/" ++
        match (save_to_txt_file true clk.txtDisplay clk.txtIso clk.mtime dd
          vf.filename vf.content.length clk.ts _).1 with
        | some p => pyBasename p
        | none => "failed") = some (Entry.file c clk.mtime)
    rw [hsave]
    show fsLookup _ (UPLOAD_DIR ++ "/" ++ pyBasename _) = _
    rw [pyBasename_dir UPLOAD_DIR _ hno]
    exact fsLookup_fsWrite_self _ _ _ _

/-- C6 witness: the worked example stores and reports the pair
mobile_liveness_abc123_20260101_120000.mp4 and
device_data_abc123_20260101_120000.txt. -/
theorem C6_witness :
    ∃ r fs2, verify_endpoint (parseTo sampleDD) sampleClk true true sampleReq []
        = (Resp.ok200 r, fs2) ∧
      r.video_saved_as =
        "mobile_liveness_" ++ pyStr (Json.str "abc123") ++ "_" ++ sampleClk.ts ++ ".mp4" ∧
      r.data_saved_as =
        "device_data_" ++ pyStr (Json.str "abc123") ++ "_" ++ sampleClk.ts ++ ".txt" ∧
      fsLookup fs2 (UPLOAD_DIR ++ "/" ++ r.video_saved_as) =
        some (Entry.file sampleVid.content sampleClk.mtime) ∧
      (∃ c, fsLookup fs2 (UPLOAD_DIR ++ "/" ++ r.data_saved_as) =
        some (Entry.file c sampleClk.mtime)) :=
  C6_artifact_pair_shared_timestamp (parseTo sampleDD) sampleClk sampleReq []
    "payload" sampleDD (Json.str "abc123") (Json.bool false) sampleGps
    (Json.str "1.2.3.4") (Json.num 1) (Json.num 2) sampleVid (by decide) rfl rfl
    rfl rfl rfl (by decide) rfl rfl rfl rfl rfl rfl (by decide) (by decide)

/-- C7: the /files listing succeeds with one row per regular file of the
upload directory (in order, directories skipped, rendered to name, byte size
and modification time), and the reported count equals both the length of the
returned rows and the number of regular files. -/
theorem C7_listing_counts_regular_files (isoOf : Nat → String) (fs : FS) :
    ∃ r, list_files true isoOf fs = Except.ok r ∧
      r.count = r.files.length ∧
      r.files = (fs.filter (fun p => p.2.isFile)).map
        (fun p => FileEntry.mk p.1 p.2.sizeBytes (isoOf p.2.mtimeVal)) ∧
      r.count = (fs.filter (fun p => p.2.isFile)).length := by
  refine ⟨_, rfl, rfl, filterMap_files isoOf fs, ?_⟩
  exact (congrArg List.length (filterMap_files isoOf fs)).trans
    (List.length_map _ _)

/-- C8: the filenames just returned by a successful submission download back
byte-identically: the video name returns exactly the submitted payload, and
the transcript name returns exactly the transcript bytes stored on disk. -/
theorem C8_download_roundtrip
    (parse : String → Option Json) (clk : Clock)
    (req : VerifyRequest) (fs : FS) (ds : String) (dd did ic gps ip lat lon : Json)
    (vf : FilePart)
    (hm : ¬ req.method = "OPTIONS")
    (hct : contentTypeValid req.contentType = true)
    (hd : alookup req.form "data" = some ds)
    (hp : parse ds = some dd)
    (hchk : checkRequired dd required_fields = FieldCheck.ok)
    (hv : alookup req.files "liveness_video" = some vf)
    (hfn : ¬ vf.filename = "")
    (h1 : jsonGet dd "device_id" = some did)
    (h2 : jsonGet dd "is_compromised" = some ic)
    (h3 : jsonGet dd "gps_location" = some gps)
    (h4 : jsonGet dd "ip_address" = some ip)
    (h5 : jsonGet gps "latitude" = some lat)
    (h6 : jsonGet gps "longitude" = some lon)
    (hsd : ('/' : Char) ∉ (pyStr did).data)
    (hst : ('/' : Char) ∉ clk.ts.data) :
    ∃ r fs2 c, verify_endpoint parse clk true true req fs = (Resp.ok200 r, fs2) ∧
      download_file fs2 r.video_saved_as = DownloadResp.ok vf.content ∧
      fsLookup fs2 (UPLOAD_DIR ++ "/" ++ r.data_saved_as) =
        some (Entry.file c clk.mtime) ∧
      download_file fs2 r.data_saved_as = DownloadResp.ok c := by
  have hno : ('/' : Char) ∉ ("device_data_" ++ pyStr did ++ "_" ++ clk.ts ++ ".txt").data :=
    no_slash_in_name "device_data_" "_" ".txt" (pyStr did) clk.ts
      (by decide) (by decide) (by decide) hsd hst
  obtain ⟨c, hsave⟩ := save_to_txt_file_ok clk.txtDisplay clk.txtIso clk.mtime dd
    vf.filename vf.content.length clk.ts
    (fsWrite fs
      (UPLOAD_DIR ++ "/" ++ ("mobile_liveness_" ++ pyStr did ++ "_" ++ clk.ts ++ ".mp4"))
      vf.content clk.mtime) did ic ip gps lat lon h1 h2 h4 h3 h5 h6
  rw [verify_run parse clk true req fs ds dd did ic gps ip vf
    hm hct hd hp hchk hv hfn h1 h2 h3 h4]
  refine ⟨_, _, c, rfl, ?_, ?_, ?_⟩
  · show download_file (save_to_txt_file true clk.txtDisplay clk.txtIso clk.mtime dd
        vf.filename vf.content.length clk.ts _).2 _ = _
    rw [hsave]
    unfold download_file
    rw [fsLookup_fsWrite_ne _ _ _ _ _
        (video_path_ne_txt_path (pyStr did) clk.ts (pyStr did) clk.ts),
      fsLookup_fsWrite_self]
  · show fsLookup (save_to_txt_file true clk.txtDisplay clk.txtIso clk.mtime dd
        vf.filename vf.content.length clk.ts _).2
      (UPLOAD_DIR ++ "/" ++
        match (save_to_txt_file true clk.txtDisplay clk.txtIso clk.mtime dd
          vf.filename vf.content.length clk.ts _).1 with
        | some p => pyBasename p
        | none => "failed") = some (Entry.file c clk.mtime)
    rw [hsave]
    show fsLookup _ (UPLOAD_DIR ++ "/" ++ pyBasename _) = _
    rw [pyBasename_dir UPLOAD_DIR _ hno]
    exact fsLookup_fsWrite_self _ _ _ _
  · show download_file (save_to_txt_file true clk.txtDisplay clk.txtIso clk.mtime dd
        vf.filename vf.content.length clk.ts _).2
      (match (save_to_txt_file true clk.txtDisplay clk.txtIso clk.mtime dd
          vf.filename vf.content.length clk.ts _).1 with
        | some p => pyBasename p
        | none => "failed") = DownloadResp.ok c
    rw [hsave]
    show download_file _ (pyBasename _) = _
    rw [pyBasename_dir UPLOAD_DIR _ hno]
    unfold download_file
    rw [fsLookup_fsWrite_self]

/-- C8 witness: on the worked example both returned names download back the
stored bytes, the video one giving back exactly the submitted payload. -/
theorem C8_witness :
    ∃ r fs2 c,
      verify_endpoint (parseTo sampleDD) sampleClk true true sampleReq []
        = (Resp.ok200 r, fs2) ∧
      download_file fs2 r.video_saved_as = DownloadResp.ok sampleVid.content ∧
      fsLookup fs2 (UPLOAD_DIR ++ "/" ++ r.data_saved_as) =
        some (Entry.file c sampleClk.mtime) ∧
      download_file fs2 r.data_saved_as = DownloadResp.ok c :=
  C8_download_roundtrip (parseTo sampleDD) sampleClk sampleReq []
    "payload" sampleDD (Json.str "abc123") (Json.bool false) sampleGps
    (Json.str "1.2.3.4") (Json.num 1) (Json.num 2) sampleVid (by decide) rfl rfl
    rfl rfl rfl (by decide) rfl rfl rfl rfl rfl rfl (by decide) (by decide)

/-- C9: a download of any filename that does not name an existing regular
file of the upload directory answers NotFound; the filename is used exactly
as given, with no sanitization and no pre-check of its own. -/
theorem C9_download_missing_is_404 (fs : FS) (filename : String)
    (h : ∀ c m, ¬ fsLookup fs (UPLOAD_DIR ++ "/" ++ filename) =
      some (Entry.file c m)) :
    download_file fs filename =
      DownloadResp.notFound ("404 Not Found: " ++ filename) := by
  unfold download_file
  split
  · exact absurd ‹_› (h _ _)
  · rfl

/-- C9 witness: downloading from an empty upload directory answers the 404. -/
theorem C9_witness :
    download_file [] "missing.mp4" =
      DownloadResp.notFound ("404 Not Found: " ++ "missing.mp4") :=
  C9_download_missing_is_404 [] "missing.mp4"
    (by intro c m; simp [fsLookup, alookup])

/-- C10: when the decoded data object carries all four required keys, the
required-field loop passes and the handler never answers a missing-field 400,
whatever values (null, empty string, non-object gps_location) the keys are
bound to: presence is decided by key membership alone. -/
theorem C10_presence_by_key_membership
    (parse : String → Option Json) (clk : Clock) (videoOk txtOk : Bool)
    (req : VerifyRequest) (fs : FS) (ds : String) (kvs : List (String × Json))
    (hm : ¬ req.method = "OPTIONS")
    (hct : contentTypeValid req.contentType = true)
    (hd : alookup req.form "data" = some ds)
    (hp : parse ds = some (Json.obj kvs))
    (h1 : (alookup kvs "device_id").isSome = true)
    (h2 : (alookup kvs "is_compromised").isSome = true)
    (h3 : (alookup kvs "gps_location").isSome = true)
    (h4 : (alookup kvs "ip_address").isSome = true) :
    checkRequired (Json.obj kvs) required_fields = FieldCheck.ok ∧
      Resp.namesMissingField (verify_endpoint parse clk videoOk txtOk req fs).1
        = false := by
  obtain ⟨v1, hv1⟩ := Option.isSome_iff_exists.mp h1
  obtain ⟨v2, hv2⟩ := Option.isSome_iff_exists.mp h2
  obtain ⟨v3, hv3⟩ := Option.isSome_iff_exists.mp h3
  obtain ⟨v4, hv4⟩ := Option.isSome_iff_exists.mp h4
  have hchk : checkRequired (Json.obj kvs) required_fields = FieldCheck.ok := by
    rw [checkRequired_obj]
    simp [required_fields, List.find?, hv1, hv2, hv3, hv4]
  refine ⟨hchk, ?_⟩
  simp only [verify_endpoint, if_neg hm, hct, hd, hp, hchk,
    if_neg (show ¬(true = false) by simp)]
  repeat' split
  all_goals rfl

/-- C10 witness: all four keys present but bound to null, the empty string
and a numeric gps_location still pass the required-field validation. -/
theorem C10_witness :
    checkRequired
        (Json.obj [("device_id", Json.null), ("is_compromised", Json.str ""),
          ("gps_location", Json.num 3), ("ip_address", Json.null)])
        required_fields = FieldCheck.ok ∧
      Resp.namesMissingField
        (verify_endpoint (parseTo oddValuesDD) sampleClk true true sampleReq []).1
        = false :=
  C10_presence_by_key_membership (parseTo oddValuesDD) sampleClk true true
    sampleReq [] "payload"
    [("device_id", Json.null), ("is_compromised", Json.str ""),
      ("gps_location", Json.num 3), ("ip_address", Json.null)]
    (by decide) rfl rfl rfl rfl rfl rfl rfl

end Harness
